import Mathlib

/-
Verification development for the issue-relationship resolution core of the
mcp-jira repository (the module exporting getIssueStructure,
formatIssueStructure, with helpers convertToRelatedIssue, searchEpicStories,
findEpicField, createJiraUrl, getStatusIcon).

Modelling conventions:
- Raw Jira payloads are modelled by RawFields / FieldVal / RawIssue below;
  an optional value models a property that may be undefined in the raw JSON.
- JavaScript truthiness on string-or-undefined values is modelled by jsOr
  and jsTruthyOpt: undefined and the empty string are falsy.
- The remote Jira client is an oracle of type JiraClient: a pair of functions
  from request records to Except results. A thrown/rejected remote call is an
  Except.error; the searchForIssuesUsingJql result carries an optional issue
  list (searchResults.issues may be undefined).
- An uncaught JavaScript TypeError (property access on undefined) is modelled
  as Except.error in the function where it would be thrown.
-/

/-- Snapshot of one Jira issue for display purposes (interface RelatedIssue). -/
structure RelatedIssue where
  key : String
  summary : String
  status : String
  type : String
  url : String
  priority : Option String
deriving DecidableEq

/-- Aggregate result of getIssueStructure (interface IssueStructure). -/
structure IssueStructure where
  current : RelatedIssue
  parent : Option RelatedIssue
  epic : Option RelatedIssue
  subtasks : List RelatedIssue
  siblings : List RelatedIssue
  epicStories : List RelatedIssue
deriving DecidableEq

mutual

/-- Raw issue fields object as read by the module: the display fields read by
convertToRelatedIssue, the project key, the embedded parent and subtask
payloads (each a key paired with an optional fields object), and the five
epic-link candidate slots probed by findEpicField. -/
inductive RawFields : Type where
  | mk
      (summary statusName issuetypeName priorityName projectKey : Option String)
      (parent : Option (String × Option RawFields))
      (subtasks : Option (List (String × Option RawFields)))
      (customfield_10014 customfield_10006 customfield_10007 epic epicLink :
        Option FieldVal)
      : RawFields

/-- Value of one epic-link candidate slot: either a string, or an object that
may carry a key, an epicName, and a fields object. -/
inductive FieldVal : Type where
  | vstr (s : String) : FieldVal
  | vobj (key : Option String) (epicName : Option String)
      (fields : Option RawFields) : FieldVal

end

/-- A raw issue payload: its key and its optional fields object. -/
abbrev RawIssue := String × Option RawFields

def RawFields.summary : RawFields → Option String
  | .mk s _ _ _ _ _ _ _ _ _ _ _ => s

def RawFields.statusName : RawFields → Option String
  | .mk _ s _ _ _ _ _ _ _ _ _ _ => s

def RawFields.issuetypeName : RawFields → Option String
  | .mk _ _ s _ _ _ _ _ _ _ _ _ => s

def RawFields.priorityName : RawFields → Option String
  | .mk _ _ _ s _ _ _ _ _ _ _ _ => s

def RawFields.projectKey : RawFields → Option String
  | .mk _ _ _ _ s _ _ _ _ _ _ _ => s

def RawFields.parent : RawFields → Option (String × Option RawFields)
  | .mk _ _ _ _ _ p _ _ _ _ _ _ => p

def RawFields.subtasks : RawFields → Option (List (String × Option RawFields))
  | .mk _ _ _ _ _ _ t _ _ _ _ _ => t

def RawFields.customfield_10014 : RawFields → Option FieldVal
  | .mk _ _ _ _ _ _ _ a _ _ _ _ => a

def RawFields.customfield_10006 : RawFields → Option FieldVal
  | .mk _ _ _ _ _ _ _ _ a _ _ _ => a

def RawFields.customfield_10007 : RawFields → Option FieldVal
  | .mk _ _ _ _ _ _ _ _ _ a _ _ => a

def RawFields.epic : RawFields → Option FieldVal
  | .mk _ _ _ _ _ _ _ _ _ _ a _ => a

def RawFields.epicLink : RawFields → Option FieldVal
  | .mk _ _ _ _ _ _ _ _ _ _ _ a => a

/-- JavaScript `a || d` on a string-or-undefined value: undefined and the
empty string are falsy and fall through to the default. -/
def jsOr : Option String → String → String
  | none, d => d
  | some s, d => if s = "" then d else s

/-- JavaScript truthiness of a string-or-undefined value. -/
def jsTruthyOpt : Option String → Bool
  | none => false
  | some s => s ≠ ""

/-- JavaScript truthiness of an epic-field value: objects are truthy, a
string is truthy when non-empty. -/
def FieldVal.truthy : FieldVal → Bool
  | .vstr s => s ≠ ""
  | .vobj _ _ _ => true

/-- Strips a leading protocol from the configured host, as the regex
replace of createJiraUrl does. -/
def stripProtocol (host : String) : String :=
  if host.startsWith "https://" then host.drop 8
  else if host.startsWith "http://" then host.drop 7
  else host

/-- Builds the browse URL for a ticket (createJiraUrl). -/
def createJiraUrl (host : String) (issueKey : String) : String :=
  let cleanHost := stripProtocol host
  s!"https://{cleanHost}/browse/{issueKey}"

/-- Converts a raw Jira issue into a RelatedIssue (convertToRelatedIssue).
The raw issue is passed as its key and its optional fields object. -/
def convertToRelatedIssue (key : String) (fields : Option RawFields)
    (host : String) : RelatedIssue :=
  { key := key
    summary := jsOr (fields.bind RawFields.summary) "Без названия"
    status := jsOr (fields.bind RawFields.statusName) "Неизвестно"
    type := jsOr (fields.bind RawFields.issuetypeName) "Неизвестно"
    url := createJiraUrl host key
    priority := fields.bind RawFields.priorityName }

/-- Request record of a getIssue call: issueIdOrKey, expand, fields. -/
structure GetRequest where
  issueIdOrKey : String
  expand : List String
  fields : List String
deriving DecidableEq

/-- Request record of a searchForIssuesUsingJql call. -/
structure SearchRequest where
  jql : String
  fields : List String
  maxResults : Nat
  startAt : Nat
deriving DecidableEq

/-- Oracle for the external Jira client: getIssue either rejects (error) or
yields a raw issue payload; search either rejects or yields a result whose
issues list may be undefined. -/
structure JiraClient where
  getIssue : GetRequest → Except String RawIssue
  search : SearchRequest → Except String (Option (List RawIssue))

/-- The getIssue request issued for the target issue (expand parent,
subtasks, issuelinks; fields *all). -/
def initialGetReq (issueKey : String) : GetRequest :=
  ⟨issueKey, ["parent", "subtasks", "issuelinks"], ["*all"]⟩

/-- The getIssue request issued to re-fetch the parent with its subtasks. -/
def parentGetReq (parentKey : String) : GetRequest :=
  ⟨parentKey, ["subtasks"], ["subtasks", "*all"]⟩

/-- The getIssue request issued to fetch an epic by key. -/
def epicGetReq (epicKey : String) : GetRequest :=
  ⟨epicKey, [], ["summary", "status", "issuetype", "priority"]⟩

/-- The four JQL candidate strings tried by searchEpicStories, in order. -/
def epicStoryJql (epicKey : String) : List String :=
  let proj := (epicKey.splitOn "-").headD ""
  [s!"\"Epic Link\" = {epicKey}",
   s!"cf[10014] = {epicKey}",
   s!"cf[10006] = {epicKey}",
   s!"project = {proj} AND text ~ \"{epicKey}\""]

/-- The search request built for one epic-story JQL candidate
(fields key/summary/status/issuetype/priority, maxResults 50, startAt 0). -/
def storySearchReq (jql : String) : SearchRequest :=
  ⟨jql, ["key", "summary", "status", "issuetype", "priority"], 50, 0⟩

/-- Loop body of searchEpicStories: try each JQL candidate in order; return
the converted issues of the first attempt whose result has a present,
non-empty issues list; a rejected call or an empty/absent list falls through
to the next candidate; an exhausted list yields the empty result. -/
def searchEpicStoriesGo (jira : JiraClient) (host : String) :
    List String → List RelatedIssue
  | [] => []
  | jql :: rest =>
    match jira.search (storySearchReq jql) with
    | .ok (some issues) =>
      if issues.length > 0 then
        issues.map (fun i => convertToRelatedIssue i.1 i.2 host)
      else searchEpicStoriesGo jira host rest
    | .ok none => searchEpicStoriesGo jira host rest
    | .error _ => searchEpicStoriesGo jira host rest

/-- Searches all stories of an epic via JQL fallbacks (searchEpicStories). -/
def searchEpicStories (jira : JiraClient) (epicKey : String) (host : String) :
    List RelatedIssue :=
  searchEpicStoriesGo jira host (epicStoryJql epicKey)

/-- The ordered probe list of findEpicField: field name paired with the raw
value stored under that name. -/
def epicFieldProbe (fields : RawFields) : List (String × Option FieldVal) :=
  [("customfield_10014", fields.customfield_10014),
   ("customfield_10006", fields.customfield_10006),
   ("customfield_10007", fields.customfield_10007),
   ("epic", fields.epic),
   ("epicLink", fields.epicLink)]

/-- Loop body of findEpicField: return the first truthy candidate value, in
probe order; a truthy string found under customfield_10007 is wrapped as an
epic-name marker object. -/
def findEpicFieldGo : List (String × Option FieldVal) → Option FieldVal
  | [] => none
  | (name, fv?) :: rest =>
    match fv? with
    | none => findEpicFieldGo rest
    | some fv =>
      if fv.truthy then
        if name = "customfield_10007" then
          match fv with
          | .vstr s => some (.vobj none (some s) none)
          | _ => some fv
        else some fv
      else findEpicFieldGo rest

/-- Searches the epic-link field among its known variants (findEpicField). -/
def findEpicField (fields : RawFields) : Option FieldVal :=
  findEpicFieldGo (epicFieldProbe fields)

/-- The epic-field probe of getIssueStructure, lines 142 to 148: probe the
target fields, then the re-fetched parent fields when the first probe found
nothing. The source applies findEpicField to a possibly-undefined fields
value without a guard; property access on undefined throws, which is
modelled as the error case here. -/
def locateEpicChecked (targetFields : Option RawFields)
    (parentFetched : Option RawIssue) : Except String (Option FieldVal) :=
  match targetFields with
  | none => .error "TypeError: cannot read epic fields of undefined"
  | some tf =>
    match findEpicField tf with
    | some v => .ok (some v)
    | none =>
      match parentFetched with
      | none => .ok none
      | some p =>
        match p.2 with
        | none => .error "TypeError: cannot read epic fields of undefined"
        | some pf => .ok (findEpicField pf)

/-- The project key used by the epic-by-name search: the project key of the
target payload, or the prefix of the requested issue key before the first
dash. -/
def projKeyOf (issue : RawIssue) (issueKey : String) : String :=
  jsOr (issue.2.bind RawFields.projectKey) ((issueKey.splitOn "-").headD "")

/-- The search request built by the epic-by-name path (issuetype Epic in the
same project, summary approximate match, maxResults 1, startAt 0). -/
def epicNameSearchReq (projKey : String) (epicName : String) : SearchRequest :=
  ⟨s!"project = \"{projKey}\" AND issuetype = Epic AND summary ~ \"{epicName}\"",
   ["key", "summary", "status", "issuetype", "priority"], 1, 0⟩

/-- Epic resolution block of getIssueStructure, lines 150 to 190: a string
reference is fetched by key; an object with a truthy key is converted in
place; otherwise a truthy epicName triggers a one-result search taking the
first match; every rejected call and every empty search leaves the epic
unset (the enclosing try/catch). -/
def resolveEpic (jira : JiraClient) (issue : RawIssue) (issueKey : String)
    (host : String) : Option FieldVal → Option RelatedIssue
  | none => none
  | some (.vstr s) =>
    match jira.getIssue (epicGetReq s) with
    | .ok e => some (convertToRelatedIssue e.1 e.2 host)
    | .error _ => none
  | some (.vobj k en f) =>
    if jsTruthyOpt k then
      some (convertToRelatedIssue (k.getD "") f host)
    else if jsTruthyOpt en then
      match jira.search (epicNameSearchReq (projKeyOf issue issueKey) (en.getD "")) with
      | .ok (some (i :: _)) => some (convertToRelatedIssue i.1 i.2 host)
      | _ => none
    else none

/-- Parent re-fetch of getIssueStructure, lines 119 to 133: when the target
payload embeds a parent, re-fetch that parent by the key of its normalized
form, with subtasks expanded; a rejected call degrades to no payload. -/
def parentRefetched (jira : JiraClient) (issue : RawIssue) (host : String) :
    Option RawIssue :=
  match issue.2.bind RawFields.parent with
  | some p =>
    (jira.getIssue (parentGetReq (convertToRelatedIssue p.1 p.2 host).key)).toOption
  | none => none

/-- The structure assembled after the epic probe succeeded with the located
field value: lines 110 to 221 of the source apart from the probe itself.
The current issue, the embedded parent, the own subtasks, the epic resolved
from the located value, the epic stories filtered by the current key, and
the siblings taken from the re-fetched parent filtered by the requested
issue key. -/
def assembledRecord (jira : JiraClient) (issueKey : String) (host : String)
    (issue : RawIssue) (epicField? : Option FieldVal) : IssueStructure :=
  let current := convertToRelatedIssue issue.1 issue.2 host
  let parentFetched : Option RawIssue := parentRefetched jira issue host
  let epic? := resolveEpic jira issue issueKey host epicField?
  { current := current
    parent :=
      (issue.2.bind RawFields.parent).map
        (fun p => convertToRelatedIssue p.1 p.2 host)
    epic := epic?
    subtasks :=
      ((issue.2.bind RawFields.subtasks).getD []).map
        (fun t => convertToRelatedIssue t.1 t.2 host)
    siblings :=
      match parentFetched with
      | some p =>
        (((p.2.bind RawFields.subtasks).getD []).filter
            (fun t => t.1 != issueKey)).map
          (fun t => convertToRelatedIssue t.1 t.2 host)
      | none => []
    epicStories :=
      match epic? with
      | some e =>
        (searchEpicStories jira e.key host).filter
          (fun story => story.key != current.key)
      | none => [] }

/-- Everything getIssueStructure does after the initial fetch fulfilled with
the given payload: run the epic probe (which may throw on a fields-less
payload) and assemble the structure from its result. -/
def assembleStructure (jira : JiraClient) (issueKey : String) (host : String)
    (issue : RawIssue) : Except String IssueStructure :=
  match locateEpicChecked issue.2 (parentRefetched jira issue host) with
  | .error e => .error e
  | .ok epicField? => .ok (assembledRecord jira issueKey host issue epicField?)

/-- Gets the full structure of related issues for a ticket
(getIssueStructure). Only the initial fetch propagates a rejected call; the
epic probe step may also propagate a TypeError on a fields-less payload, as
in the source. -/
def getIssueStructure (jira : JiraClient) (issueKey : String) (host : String) :
    Except String IssueStructure :=
  match jira.getIssue (initialGetReq issueKey) with
  | .error e => .error e
  | .ok issue => assembleStructure jira issueKey host issue

/-- Substring test standing in for the JavaScript includes call: the pattern
occurs in the string exactly when splitting on it yields at least two
pieces (patterns used here are never empty). -/
def hasSubstr (s pat : String) : Bool :=
  decide (1 < (s.splitOn pat).length)

/-- Lower-cases one character the way toLowerCase does on the alphabets used
by the status table: ASCII letters and Russian Cyrillic letters. -/
def jsCharLower (c : Char) : Char :=
  if 'A' ≤ c ∧ c ≤ 'Z' then Char.ofNat (c.toNat + 32)
  else if 'А' ≤ c ∧ c ≤ 'Я' then Char.ofNat (c.toNat + 32)
  else if c = 'Ё' then 'ё'
  else c

/-- Lower-cases a status string as toLowerCase does. -/
def jsToLower (s : String) : String :=
  s.map jsCharLower

/-- Returns the status icon (getStatusIcon): case-insensitive substring
match against the lowered status, in the fixed check order of the source. -/
def getStatusIcon (status : String) : String :=
  let lowerStatus := jsToLower status
  if hasSubstr lowerStatus "готово" || hasSubstr lowerStatus "закрыт" ||
      hasSubstr lowerStatus "done" || hasSubstr lowerStatus "closed" then "✅"
  else if hasSubstr lowerStatus "работе" || hasSubstr lowerStatus "progress" ||
      hasSubstr lowerStatus "разработ" then "🔄"
  else if hasSubstr lowerStatus "review" || hasSubstr lowerStatus "ревью" then "👁️"
  else if hasSubstr lowerStatus "release" || hasSubstr lowerStatus "релиз" then "🚀"
  else if hasSubstr lowerStatus "test" || hasSubstr lowerStatus "тест" then "🧪"
  else "📋"

/-- One numbered list line of the renderer, as written for epic stories,
siblings and subtasks alike: the title link line and the status/type line
with the status icon. -/
def issueListLine (idx : Nat) (it : RelatedIssue) : String :=
  let statusIcon := getStatusIcon it.status
  let n := idx + 1
  let k := it.key
  let sm := it.summary
  let u := it.url
  let st := it.status
  let ty := it.type
  s!"{n}. **[{k}: {sm}]({u})**\n   - **Статус:** {statusIcon} {st} | **Тип:** {ty}\n"

/-- The three detail lines the renderer writes for the epic, the parent and
the current issue: title link, type, status, and the priority line only when
the priority is truthy. -/
def issueCard (it : RelatedIssue) : String :=
  "**[" ++ it.key ++ ": " ++ it.summary ++ "](" ++ it.url ++ ")**\n"
    ++ "- **Тип:** " ++ it.type ++ "\n"
    ++ "- **Статус:** " ++ it.status ++ "\n"
    ++ (if jsTruthyOpt it.priority then
          "- **Приоритет:** " ++ it.priority.getD "" ++ "\n"
        else "")

/-- Renders one numbered list of issues in order. -/
def renderIssueLines (items : List RelatedIssue) : String :=
  String.join (items.enum.map (fun p => issueListLine p.1 p.2))

/-- The nested epic-stories sub-list of the epic section, lines 275 to 284
of the source: present only when the list is non-empty. -/
def epicStoriesSubBlock (stories : List RelatedIssue) : String :=
  if stories.length > 0 then
    "\n#### 📚 **Истории эпика** (" ++ toString stories.length ++ ")\n"
      ++ renderIssueLines stories
  else ""

/-- The epic section of the renderer, lines 265 to 287 of the source. -/
def epicBlock (s : IssueStructure) : String :=
  match s.epic with
  | some epic =>
    "### 🎯 **ЭПИК**\n" ++ issueCard epic
      ++ epicStoriesSubBlock s.epicStories ++ "\n---\n\n"
  | none => ""

/-- The parent section of the renderer, lines 290 to 299 of the source. -/
def parentBlock (s : IssueStructure) : String :=
  match s.parent with
  | some p => "### 📚 **РОДИТЕЛЬСКАЯ ЗАДАЧА**\n" ++ issueCard p ++ "\n---\n\n"
  | none => ""

/-- The current-issue section of the renderer, lines 302 to 308 of the
source, written unconditionally. -/
def currentBlock (s : IssueStructure) : String :=
  "### 🎯 **ТЕКУЩАЯ ЗАДАЧА**\n" ++ issueCard s.current

/-- The siblings section of the renderer, lines 311 to 321 of the source:
present only when the list is non-empty. -/
def siblingsBlock (s : IssueStructure) : String :=
  if s.siblings.length > 0 then
    "\n### 🔗 **СВЯЗАННЫЕ ПОДЗАДАЧИ** (" ++ toString s.siblings.length ++ ")\n"
      ++ renderIssueLines s.siblings ++ "\n"
  else ""

/-- The subtasks section of the renderer, lines 324 to 333 of the source:
present only when the list is non-empty. -/
def subtasksBlock (s : IssueStructure) : String :=
  if s.subtasks.length > 0 then
    "### 🔧 **ПОДЗАДАЧИ** (" ++ toString s.subtasks.length ++ ")\n"
      ++ renderIssueLines s.subtasks
  else ""

/-- Formats the structure of related issues (formatIssueStructure): the
fixed header followed by the five sections in source order. -/
def formatIssueStructure (s : IssueStructure) : String :=
  "## 📋 Структура связанных задач\n\n"
    ++ epicBlock s ++ parentBlock s ++ currentBlock s
    ++ siblingsBlock s ++ subtasksBlock s

/-- Whether one probe-list entry is populated: the slot holds a truthy
value. Spec-side predicate used to state the first-match-wins property. -/
def probePopulated : String × Option FieldVal → Bool
  | (_, none) => false
  | (_, some fv) => fv.truthy

/-- The value a populated probe-list entry contributes: the epic-name wrap
for a string found in the customfield_10007 slot, the stored value
otherwise. Spec-side function used to state the first-match-wins property. -/
def wrapEpicValue : String × Option FieldVal → Option FieldVal
  | (_, none) => none
  | (n, some (.vstr s)) =>
    if n = "customfield_10007" then some (.vobj none (some s) none)
    else some (.vstr s)
  | (_, some (.vobj k en f)) => some (.vobj k en f)

/-- The issues delivered by one search attempt when it hits: a fulfilled
call whose issues list is present and non-empty. Spec-side view of one
candidate query attempt. -/
def attemptHits : Except String (Option (List RawIssue)) → Option (List RawIssue)
  | .ok (some l) => if l.length > 0 then some l else none
  | _ => none

/-- Modelled from the claim wording of the Epic Story Resolver: the result
of the first candidate query, in order, whose attempt yields at least one
issue; a failing or empty attempt falls through to the next candidate. -/
def firstNonEmptyAttempt (jira : JiraClient) : List String → Option (List RawIssue)
  | [] => none
  | q :: rest =>
    match attemptHits (jira.search (storySearchReq q)) with
    | some l => some l
    | none => firstNonEmptyAttempt jira rest

/-- Payload-builder for the concrete runs below: a fields object whose
display and epic slots are all undefined, with the given embedded parent
and subtask payloads. -/
def plainFields (parent : Option (String × Option RawFields))
    (subtasks : Option (List (String × Option RawFields))) : RawFields :=
  .mk none none none none none parent subtasks none none none none none

/-- Payload-builder for the concrete runs below: a fields object whose only
populated slot is customfield_10014. -/
def epicFields10014 (v : FieldVal) : RawFields :=
  .mk none none none none none none none (some v) none none none none

/-- Client whose every remote call rejects. -/
def errClient : JiraClient :=
  ⟨fun _ => .error "unavailable", fun _ => .error "unavailable"⟩

/-- Client whose initial fetch of A-1 fulfills with a payload that has no
fields object, and whose every other call rejects. -/
def fieldslessClient : JiraClient :=
  ⟨fun req =>
    if req = initialGetReq "A-1" then .ok ("A-1", none)
    else .error "not found",
   fun _ => .error "unavailable"⟩

/-- Client whose initial fetch of A-1 fulfills with a payload that has a
fields object but no parent, and whose every other call rejects. -/
def simpleClient : JiraClient :=
  ⟨fun req =>
    if req = initialGetReq "A-1" then .ok ("A-1", some (plainFields none none))
    else .error "not found",
   fun _ => .error "unavailable"⟩

/-- Client that answers the fetch of A-1 with a payload whose canonical key
is B-2 (the tracker serves the issue under another key), whose parent P-1
lists B-2 and X-3 as subtasks. -/
def renamedClient : JiraClient :=
  ⟨fun req =>
    if req = initialGetReq "A-1" then
      .ok ("B-2", some (plainFields (some ("P-1", none)) none))
    else if req = parentGetReq "P-1" then
      .ok ("P-1", some (plainFields none (some [("B-2", none), ("X-3", none)])))
    else .error "not found",
   fun _ => .error "unavailable"⟩

/-- Client that answers the fetch of A-1 under its own key, with parent P-1
whose subtasks are A-1 and X-3. -/
def parentedClient : JiraClient :=
  ⟨fun req =>
    if req = initialGetReq "A-1" then
      .ok ("A-1", some (plainFields (some ("P-1", none)) none))
    else if req = parentGetReq "P-1" then
      .ok ("P-1", some (plainFields none (some [("A-1", none), ("X-3", none)])))
    else .error "not found",
   fun _ => .error "unavailable"⟩

/-- The subtask list of P-1 served by parentedClient. -/
def parentedSubtasks : List (String × Option RawFields) :=
  [("A-1", none), ("X-3", none)]

/-- RelatedIssue with every display field defaulted, for the host of the
concrete runs. -/
def defaultRelated (k : String) : RelatedIssue :=
  ⟨k, "Без названия", "Неизвестно", "Неизвестно",
   createJiraUrl "jira.example.com" k, none⟩

/-- The structure the parentedClient run assembles. -/
def parentedExpected : IssueStructure :=
  ⟨defaultRelated "A-1", some (defaultRelated "P-1"), none, [],
   [defaultRelated "X-3"], []⟩

/-- The structure the simpleClient run assembles. -/
def simpleExpected : IssueStructure :=
  ⟨defaultRelated "A-1", none, none, [], [], []⟩

@[simp] theorem convertToRelatedIssue_key (key : String) (fields : Option RawFields)
    (host : String) : (convertToRelatedIssue key fields host).key = key := rfl

/-- Claim C5 counterexample: on a payload with every display field missing,
the normalizer substitutes the Russian default strings of the source, not
the exact strings Untitled and Unknown the claim names. -/
theorem C5_counterexample :
    (convertToRelatedIssue "T-1" none "jira.example.com").summary ≠ "Untitled" ∧
    (convertToRelatedIssue "T-1" none "jira.example.com").status ≠ "Unknown" ∧
    (convertToRelatedIssue "T-1" none "jira.example.com").type ≠ "Unknown" ∧
    (convertToRelatedIssue "T-1" none "jira.example.com").summary = "Без названия" := by
  decide

/-- Claim C5 (amended): for every raw issue payload, convertToRelatedIssue
never fails and substitutes the exact default strings of the source, namely
the Russian strings Без названия for a missing or empty summary and
Неизвестно for a missing or empty status name and issue-type name, while a
missing priority stays absent in the result rather than being defaulted. -/
theorem C5_thm (key host : String) (f : Option RawFields) :
    ((f.bind RawFields.summary = none ∨ f.bind RawFields.summary = some "") →
      (convertToRelatedIssue key f host).summary = "Без названия") ∧
    ((f.bind RawFields.statusName = none ∨ f.bind RawFields.statusName = some "") →
      (convertToRelatedIssue key f host).status = "Неизвестно") ∧
    ((f.bind RawFields.issuetypeName = none ∨ f.bind RawFields.issuetypeName = some "") →
      (convertToRelatedIssue key f host).type = "Неизвестно") ∧
    (convertToRelatedIssue key f host).priority = f.bind RawFields.priorityName := by
  refine ⟨?_, ?_, ?_, rfl⟩ <;> rintro (h | h) <;> simp [convertToRelatedIssue, jsOr, h]

/-- Claim C5 witness: the defaults observed on a concrete fields-less
payload, with the priority left absent. -/
theorem C5_witness :
    (convertToRelatedIssue "T-2" none "jira.example.com").summary = "Без названия" ∧
    (convertToRelatedIssue "T-2" none "jira.example.com").priority = none :=
  ⟨(C5_thm "T-2" "jira.example.com" none).1 (Or.inl rfl),
   (C5_thm "T-2" "jira.example.com" none).2.2.2⟩

theorem findEpicFieldGo_eq (l : List (String × Option FieldVal)) :
    findEpicFieldGo l = (l.find? probePopulated).bind wrapEpicValue := by
  induction l with
  | nil => rfl
  | cons hd tl ih =>
    obtain ⟨n, fv?⟩ := hd
    cases fv? with
    | none =>
      rw [List.find?_cons_of_neg _ (by simp [probePopulated])]
      simpa only [findEpicFieldGo] using ih
    | some fv =>
      by_cases hfv : fv.truthy
      · rw [List.find?_cons_of_pos _ (by simp [probePopulated, hfv])]
        simp only [findEpicFieldGo, hfv, if_true]
        cases fv with
        | vstr s =>
          by_cases hn : n = "customfield_10007" <;> simp [wrapEpicValue, hn]
        | vobj k en f => simp [wrapEpicValue]
      · rw [List.find?_cons_of_neg _ (by simp [probePopulated, hfv])]
        simp only [findEpicFieldGo, if_neg hfv]
        exact ih

/-- Claim C4: findEpicField checks its fixed declared list of candidate
slots in order and returns the value of the earliest populated one (with
the epic-name wrap applied to a string in the customfield_10007 slot); when
two or more slots are populated the earlier one wins, because the result is
the first populated entry of the probe list; when no slot is populated it
reports none. -/
theorem C4_thm (f : RawFields) :
    epicFieldProbe f =
      [("customfield_10014", f.customfield_10014),
       ("customfield_10006", f.customfield_10006),
       ("customfield_10007", f.customfield_10007),
       ("epic", f.epic),
       ("epicLink", f.epicLink)] ∧
    findEpicField f = ((epicFieldProbe f).find? probePopulated).bind wrapEpicValue ∧
    ((∀ e ∈ epicFieldProbe f, ¬ probePopulated e) → findEpicField f = none) := by
  refine ⟨rfl, findEpicFieldGo_eq _, fun h => ?_⟩
  rw [findEpicField, findEpicFieldGo_eq, List.find?_eq_none.mpr h]
  rfl

/-- Claim C4 witness: on a payload with every candidate slot empty the
locator reports none. -/
theorem C4_witness : findEpicField (plainFields none none) = none :=
  (C4_thm (plainFields none none)).2.2 (by decide)

theorem searchEpicStoriesGo_eq (jira : JiraClient) (host : String)
    (jqls : List String) :
    searchEpicStoriesGo jira host jqls =
      match firstNonEmptyAttempt jira jqls with
      | some l => l.map (fun i => convertToRelatedIssue i.1 i.2 host)
      | none => [] := by
  induction jqls with
  | nil => rfl
  | cons q rest ih =>
    simp only [searchEpicStoriesGo, firstNonEmptyAttempt]
    cases hq : jira.search (storySearchReq q) with
    | error e => simpa [attemptHits] using ih
    | ok v =>
      cases v with
      | none => simpa [attemptHits] using ih
      | some l =>
        cases l with
        | nil => simpa [attemptHits] using ih
        | cons a as => simp [attemptHits]

theorem toString_str (s : String) : toString s = s := rfl

theorem epicStoryJql_explicit (epicKey : String) :
    epicStoryJql epicKey =
      ["\"Epic Link\" = " ++ epicKey,
       "cf[10014] = " ++ epicKey,
       "cf[10006] = " ++ epicKey,
       "project = " ++ (epicKey.splitOn "-").headD ""
         ++ " AND text ~ \"" ++ epicKey ++ "\""] := by
  simp [epicStoryJql, toString_str, String.append_assoc, String.append_empty]

/-- Claim C2: for every epic key, searchEpicStories attempts its four
candidate queries in the fixed order (textual Epic Link filter, cf[10014]
filter, cf[10006] filter, same-project free-text fallback) and returns the
mapped issues of the first attempt yielding at least one issue; an attempt
that rejects or yields zero issues falls through to the next candidate and
never aborts the resolution (the function is total and returns a plain
list); when all four fail or are empty the result is the empty list; and
every attempt requests at most 50 issues. -/
theorem C2_thm (jira : JiraClient) (epicKey host : String) :
    searchEpicStories jira epicKey host =
      (match firstNonEmptyAttempt jira (epicStoryJql epicKey) with
       | some l => l.map (fun i => convertToRelatedIssue i.1 i.2 host)
       | none => []) ∧
    epicStoryJql epicKey =
      ["\"Epic Link\" = " ++ epicKey,
       "cf[10014] = " ++ epicKey,
       "cf[10006] = " ++ epicKey,
       "project = " ++ (epicKey.splitOn "-").headD ""
         ++ " AND text ~ \"" ++ epicKey ++ "\""] ∧
    (∀ jql, (storySearchReq jql).maxResults = 50) ∧
    (firstNonEmptyAttempt jira (epicStoryJql epicKey) = none →
      searchEpicStories jira epicKey host = []) := by
  refine ⟨searchEpicStoriesGo_eq jira host _, epicStoryJql_explicit epicKey,
    fun jql => rfl, fun h => ?_⟩
  rw [searchEpicStories, searchEpicStoriesGo_eq, h]

/-- Claim C2 witness: with a client whose every search rejects, no attempt
hits and the resolution yields the empty list rather than an error. -/
theorem C2_witness : searchEpicStories errClient "EP-1" "jira.example.com" = [] :=
  (C2_thm errClient "EP-1" "jira.example.com").2.2.2 rfl

theorem locateEpicChecked_someTarget (tf : RawFields) (pr : Option RawIssue) :
    locateEpicChecked (some tf) pr =
      match findEpicField tf with
      | some v => .ok (some v)
      | none =>
        match pr with
        | none => .ok none
        | some p =>
          match p.2 with
          | none => .error "TypeError: cannot read epic fields of undefined"
          | some pf => .ok (findEpicField pf) := rfl

theorem getIssueStructure_ok_eq (jira : JiraClient) (issueKey host : String)
    (issue : RawIssue) (h1 : jira.getIssue (initialGetReq issueKey) = .ok issue) :
    getIssueStructure jira issueKey host = assembleStructure jira issueKey host issue := by
  unfold getIssueStructure
  rw [h1]

theorem assembleStructure_ok_eq (jira : JiraClient) (issueKey host : String)
    (issue : RawIssue) (ef : Option FieldVal)
    (hloc : locateEpicChecked issue.2 (parentRefetched jira issue host) = .ok ef) :
    assembleStructure jira issueKey host issue =
      .ok (assembledRecord jira issueKey host issue ef) := by
  unfold assembleStructure
  rw [hloc]

theorem getIssueStructure_ok_inv (jira : JiraClient) (issueKey host : String)
    (s : IssueStructure) (h : getIssueStructure jira issueKey host = .ok s) :
    ∃ issue epicField?, jira.getIssue (initialGetReq issueKey) = .ok issue ∧
      locateEpicChecked issue.2 (parentRefetched jira issue host) = .ok epicField? ∧
      s = assembledRecord jira issueKey host issue epicField? := by
  unfold getIssueStructure at h
  split at h
  · simp at h
  · next issue hget =>
    unfold assembleStructure at h
    split at h
    · simp at h
    · next ef hloc =>
      simp only [Except.ok.injEq] at h
      exact ⟨issue, ef, hget, hloc, h.symm⟩

/-- Claim C6: when the Epic Locator finds no reference on the target fields
and the re-fetched parent payload is available with its fields, the
assembler runs the probe again on those parent fields (the probe result is
exactly findEpicField of the parent fields); when the target fields do
yield a reference, the outcome is that reference regardless of the parent
payload, so the parent fields are not probed. -/
theorem C6_thm (tf pf : RawFields) (pkey : String) :
    (findEpicField tf = none →
      locateEpicChecked (some tf) (some (pkey, some pf)) =
        .ok (findEpicField pf)) ∧
    (∀ v, findEpicField tf = some v →
      ∀ parentFetched, locateEpicChecked (some tf) parentFetched = .ok (some v)) := by
  constructor
  · intro h
    simp [locateEpicChecked, h]
  · intro v hv parentFetched
    simp [locateEpicChecked, hv]

/-- Claim C6 witness: a concrete target payload with no epic reference and
a concrete parent payload whose customfield_10014 slot is populated. -/
theorem C6_witness :
    locateEpicChecked (some (plainFields none none))
        (some ("P-1", some (epicFields10014 (.vstr "EP-1")))) =
      .ok (findEpicField (epicFields10014 (.vstr "EP-1"))) :=
  (C6_thm (plainFields none none) (epicFields10014 (.vstr "EP-1")) "P-1").1 rfl

/-- Claim C7: a located epic reference is resolved by exactly one of three
paths tried in priority order: a string reference is fetched directly by
key (a rejected fetch leaves the epic absent); an object carrying a truthy
key is converted in place with no fetch; a reference carrying only an epic
name triggers a search for an Epic in the same project approximately
matching the name, taking the first match if any, requesting at most one
result; every failing or empty call on this stage yields none (the epic
stays absent) rather than an error. -/
theorem C7_thm (jira : JiraClient) (issue : RawIssue) (issueKey host : String) :
    resolveEpic jira issue issueKey host none = none ∧
    (∀ s, resolveEpic jira issue issueKey host (some (.vstr s)) =
      match jira.getIssue (epicGetReq s) with
      | .ok e => some (convertToRelatedIssue e.1 e.2 host)
      | .error _ => none) ∧
    (∀ k en f, k ≠ "" →
      resolveEpic jira issue issueKey host (some (.vobj (some k) en f)) =
        some (convertToRelatedIssue k f host)) ∧
    (∀ en f, en ≠ "" →
      resolveEpic jira issue issueKey host (some (.vobj none (some en) f)) =
        match jira.search (epicNameSearchReq (projKeyOf issue issueKey) en) with
        | .ok (some (i :: _)) => some (convertToRelatedIssue i.1 i.2 host)
        | _ => none) ∧
    (∀ p n, (epicNameSearchReq p n).maxResults = 1) ∧
    (∀ f, resolveEpic jira issue issueKey host (some (.vobj none none f)) = none) := by
  refine ⟨rfl, fun s => rfl, ?_, ?_, fun p n => rfl, fun f => rfl⟩
  · intro k en f hk
    simp [resolveEpic, jsTruthyOpt, hk]
  · intro en f hen
    simp [resolveEpic, jsTruthyOpt, hen]

/-- Claim C7 witness: an object reference with a concrete truthy key is
converted in place, with no dependence on the (all-rejecting) client. -/
theorem C7_witness :
    resolveEpic errClient ("A-1", none) "A-1" "jira.example.com"
        (some (.vobj (some "EP-1") none none)) =
      some (convertToRelatedIssue "EP-1" none "jira.example.com") :=
  (C7_thm errClient ("A-1", none) "A-1" "jira.example.com").2.2.1
    "EP-1" none none (by decide)

/-- Claim C1 counterexample: a run whose initial fetch fulfills, with a
payload that has no fields object, still propagates a failure to the
caller: the unguarded epic-field probe throws on the fields-less payload,
so a step after the initial fetch raises an uncaught failure and no
structure is returned. -/
theorem C1_counterexample :
    fieldslessClient.getIssue (initialGetReq "A-1") = .ok ("A-1", none) ∧
    getIssueStructure fieldslessClient "A-1" "jira.example.com" =
      .error "TypeError: cannot read epic fields of undefined" := by
  exact ⟨rfl, rfl⟩

/-- Claim C1 (amended): whenever the initial fetch of the target issue
fulfills with a payload carrying a fields object, and every successfully
re-fetched parent payload carries a fields object, the operation returns an
IssueStructure; every failing remote call after the initial fetch (parent
re-fetch, epic fetch, epic-name search, epic-story queries) is individually
guarded and degrades to an absent or empty field. Beyond the claim as
stated, a fulfilled payload without a fields object reaching the epic-field
probe (the target payload, or the re-fetched parent payload when it is
probed) also propagates a failure, as the counterexample shows. -/
theorem C1_thm (jira : JiraClient) (issueKey host : String)
    (issue : RawIssue) (tf : RawFields)
    (h1 : jira.getIssue (initialGetReq issueKey) = .ok issue)
    (h2 : issue.2 = some tf)
    (h3 : ∀ p : RawIssue, parentRefetched jira issue host = some p → p.2 ≠ none) :
    ∃ s, getIssueStructure jira issueKey host = .ok s := by
  have hloc : ∃ ef, locateEpicChecked issue.2 (parentRefetched jira issue host) =
      .ok ef := by
    rw [h2, locateEpicChecked_someTarget]
    cases hfe : findEpicField tf with
    | some v => exact ⟨some v, rfl⟩
    | none =>
      cases hpr : parentRefetched jira issue host with
      | none => exact ⟨none, rfl⟩
      | some p =>
        obtain ⟨pk, pf?⟩ := p
        cases pf? with
        | none => exact absurd rfl (h3 (pk, none) hpr)
        | some pf => exact ⟨findEpicField pf, rfl⟩
  obtain ⟨ef, hef⟩ := hloc
  exact ⟨assembledRecord jira issueKey host issue ef,
    by rw [getIssueStructure_ok_eq jira issueKey host issue h1,
      assembleStructure_ok_eq jira issueKey host issue ef hef]⟩

/-- Claim C1 witness: a concrete client whose initial fetch fulfills with a
fields object and whose every other remote call rejects still yields a
structure. -/
theorem C1_witness :
    ∃ s, getIssueStructure simpleClient "A-1" "jira.example.com" = .ok s :=
  C1_thm simpleClient "A-1" "jira.example.com"
    ("A-1", some (plainFields none none)) (plainFields none none) rfl rfl
    (fun p hp => absurd hp (by simp [parentRefetched, plainFields, RawFields.parent]))

/-- Claim C8: for every structure the assembler returns, if the epic is
absent then the epic-story list is empty; the epic-story search is never
attempted when no epic was resolved. -/
theorem C8_thm (jira : JiraClient) (issueKey host : String)
    (s : IssueStructure) (h : getIssueStructure jira issueKey host = .ok s)
    (he : s.epic = none) : s.epicStories = [] := by
  obtain ⟨issue, ef, hget, hloc, rfl⟩ := getIssueStructure_ok_inv jira issueKey host s h
  simp only [assembledRecord] at he ⊢
  rw [he]

/-- Claim C8 witness: the simpleClient run returns a structure with no epic
and an empty epic-story list. -/
theorem C8_witness : simpleExpected.epicStories = [] :=
  C8_thm simpleClient "A-1" "jira.example.com" simpleExpected rfl rfl

theorem assembledRecord_siblings_all (jira : JiraClient) (issueKey host : String)
    (issue : RawIssue) (ef : Option FieldVal) :
    (assembledRecord jira issueKey host issue ef).siblings.all
      (fun e => e.key != issueKey) = true := by
  simp only [assembledRecord]
  cases parentRefetched jira issue host with
  | none => rfl
  | some p =>
    simp only [List.all_eq_true, List.mem_map, List.mem_filter]
    rintro e ⟨t, ⟨ht, htk⟩, rfl⟩
    simpa using htk

theorem assembledRecord_stories_all (jira : JiraClient) (issueKey host : String)
    (issue : RawIssue) (ef : Option FieldVal) :
    (assembledRecord jira issueKey host issue ef).epicStories.all
      (fun e => e.key !=
        (assembledRecord jira issueKey host issue ef).current.key) = true := by
  simp only [assembledRecord]
  cases resolveEpic jira issue issueKey host ef with
  | none => rfl
  | some e =>
    simp only [List.all_eq_true, List.mem_filter]
    rintro st ⟨hst, hstk⟩
    simpa using hstk

theorem assembledRecord_siblings_eq (jira : JiraClient) (issueKey host : String)
    (issue : RawIssue) (ef : Option FieldVal) (p : RawIssue) (pf : RawFields)
    (l : List (String × Option RawFields))
    (hp : parentRefetched jira issue host = some p) (hpf : p.2 = some pf)
    (hl : pf.subtasks = some l) :
    (assembledRecord jira issueKey host issue ef).siblings =
      (l.filter (fun t => t.1 != issueKey)).map
        (fun t => convertToRelatedIssue t.1 t.2 host) := by
  simp [assembledRecord, hp, hpf, hl]

/-- Claim C3 counterexample: when the tracker serves the requested issue
A-1 under the canonical key B-2 and the parent lists B-2 among its
subtasks, the run succeeds and the siblings list contains an entry whose
key equals the current key: the siblings filter compares against the
requested key, not the current key. -/
theorem C3_counterexample :
    ((getIssueStructure renamedClient "A-1" "jira.example.com").toOption.map
      (fun s => s.siblings.all (fun e => e.key != s.current.key))) = some false := by
  decide

/-- Claim C3 (amended): for every structure the assembler returns, the
epic-story list never contains an entry whose key equals the current key,
and the siblings list never contains an entry whose key equals the
requested issue key; whenever the requested key equals the canonical key of
the fetched payload (the ordinary case), the siblings list therefore also
never contains an entry whose key equals the current key. -/
theorem C3_thm (jira : JiraClient) (issueKey host : String)
    (s : IssueStructure) (h : getIssueStructure jira issueKey host = .ok s) :
    s.epicStories.all (fun e => e.key != s.current.key) = true ∧
    s.siblings.all (fun e => e.key != issueKey) = true ∧
    (s.current.key = issueKey →
      s.siblings.all (fun e => e.key != s.current.key) = true) := by
  obtain ⟨issue, ef, hget, hloc, rfl⟩ := getIssueStructure_ok_inv jira issueKey host s h
  refine ⟨assembledRecord_stories_all jira issueKey host issue ef,
    assembledRecord_siblings_all jira issueKey host issue ef, fun hk => ?_⟩
  rw [hk]
  exact assembledRecord_siblings_all jira issueKey host issue ef

/-- Claim C3 witness: the parentedClient run (requested and canonical keys
agree) returns siblings and epic stories free of the current key. -/
theorem C3_witness :
    parentedExpected.epicStories.all
      (fun e => e.key != parentedExpected.current.key) = true ∧
    parentedExpected.siblings.all
      (fun e => e.key != parentedExpected.current.key) = true := by
  have h := C3_thm parentedClient "A-1" "jira.example.com" parentedExpected rfl
  exact ⟨h.1, h.2.2 rfl⟩

/-- Claim C10: the siblings exclusion filter compares each parent subtask
key against the issueKey argument passed by the caller, whereas the
epic-story exclusion filter compares against the current key taken from the
fetched payload: for every successful run, the current key is the key of
the fetched payload, the siblings are exactly the subtask list of the
re-fetched parent minus the entries whose key equals the requested
issueKey, and the epic stories never contain the current key. The two
filters coincide when the requested key equals the canonical key. -/
theorem C10_thm (jira : JiraClient) (issueKey host : String)
    (issue : RawIssue) (s : IssueStructure)
    (h1 : jira.getIssue (initialGetReq issueKey) = .ok issue)
    (hrun : getIssueStructure jira issueKey host = .ok s) :
    s.current.key = issue.1 ∧
    s.siblings.all (fun e => e.key != issueKey) = true ∧
    s.epicStories.all (fun e => e.key != s.current.key) = true ∧
    (∀ p pf l, parentRefetched jira issue host = some p → p.2 = some pf →
      pf.subtasks = some l →
      s.siblings = (l.filter (fun t => t.1 != issueKey)).map
        (fun t => convertToRelatedIssue t.1 t.2 host)) := by
  obtain ⟨issue', ef, hget, hloc, rfl⟩ :=
    getIssueStructure_ok_inv jira issueKey host s hrun
  rw [h1] at hget
  injection hget with hii
  subst hii
  refine ⟨rfl, assembledRecord_siblings_all jira issueKey host issue ef,
    assembledRecord_stories_all jira issueKey host issue ef, ?_⟩
  intro p pf l hp hpf hl
  exact assembledRecord_siblings_eq jira issueKey host issue ef p pf l hp hpf hl

/-- Claim C10 witness: the parentedClient run, where requested and
canonical keys agree; the siblings are exactly the parent subtask list
minus the requested key. -/
theorem C10_witness :
    parentedExpected.current.key = "A-1" ∧
    parentedExpected.siblings.all (fun e => e.key != "A-1") = true ∧
    parentedExpected.siblings =
      (parentedSubtasks.filter (fun t => t.1 != "A-1")).map
        (fun t => convertToRelatedIssue t.1 t.2 "jira.example.com") := by
  have h := C10_thm parentedClient "A-1" "jira.example.com"
    ("A-1", some (plainFields (some ("P-1", none)) none)) parentedExpected rfl rfl
  exact ⟨h.1, h.2.1,
    h.2.2.2 ("P-1", some (plainFields none (some parentedSubtasks)))
      (plainFields none (some parentedSubtasks)) parentedSubtasks rfl rfl rfl⟩

/-- Claim C9: formatIssueStructure is a pure total function of the
structure; it emits the fixed header and then the sections in the fixed
order epic block (with its nested epic-stories sub-list), parent block,
current-issue block, siblings list, subtasks list; the current-issue block
is always present (non-empty); and a section whose data is absent or whose
collection is empty contributes the empty string, so no empty heading is
emitted, while a section whose data is present is non-empty. -/
theorem C9_thm (s : IssueStructure) :
    formatIssueStructure s =
      "## 📋 Структура связанных задач\n\n"
        ++ epicBlock s ++ parentBlock s ++ currentBlock s
        ++ siblingsBlock s ++ subtasksBlock s ∧
    (s.epic = none → epicBlock s = "") ∧
    (s.parent = none → parentBlock s = "") ∧
    (s.siblings = [] → siblingsBlock s = "") ∧
    (s.subtasks = [] → subtasksBlock s = "") ∧
    (s.epicStories = [] → epicStoriesSubBlock s.epicStories = "") ∧
    0 < (currentBlock s).length ∧
    (∀ e, s.epic = some e → 0 < (epicBlock s).length) ∧
    (∀ p, s.parent = some p → 0 < (parentBlock s).length) ∧
    (s.siblings ≠ [] → 0 < (siblingsBlock s).length) ∧
    (s.subtasks ≠ [] → 0 < (subtasksBlock s).length) := by
  refine ⟨rfl, fun h => by simp [epicBlock, h], fun h => by simp [parentBlock, h],
    fun h => by simp [siblingsBlock, h], fun h => by simp [subtasksBlock, h],
    fun h => by simp [epicStoriesSubBlock, h], ?_, ?_, ?_, ?_, ?_⟩
  · have h1 : 0 < ("### 🎯 **ТЕКУЩАЯ ЗАДАЧА**\n" : String).length := by decide
    simp only [currentBlock, String.length_append]
    omega
  · intro e he
    have h1 : 0 < ("### 🎯 **ЭПИК**\n" : String).length := by decide
    simp only [epicBlock, he, String.length_append]
    omega
  · intro p hp
    have h1 : 0 < ("### 📚 **РОДИТЕЛЬСКАЯ ЗАДАЧА**\n" : String).length := by decide
    simp only [parentBlock, hp, String.length_append]
    omega
  · intro h
    have hl : 0 < s.siblings.length := List.length_pos.mpr h
    have h1 : 0 < ("\n### 🔗 **СВЯЗАННЫЕ ПОДЗАДАЧИ** (" : String).length := by decide
    rw [siblingsBlock, if_pos hl]
    simp only [String.length_append]
    omega
  · intro h
    have hl : 0 < s.subtasks.length := List.length_pos.mpr h
    have h1 : 0 < ("### 🔧 **ПОДЗАДАЧИ** (" : String).length := by decide
    rw [subtasksBlock, if_pos hl]
    simp only [String.length_append]
    omega

/-- Claim C9 witness: on a structure with no epic, no parent and empty
collections, every optional section is the empty string and the rendered
text is the header followed by the blocks in order. -/
theorem C9_witness :
    epicBlock simpleExpected = "" ∧
    siblingsBlock simpleExpected = "" ∧
    0 < (currentBlock simpleExpected).length ∧
    formatIssueStructure simpleExpected =
      "## 📋 Структура связанных задач\n\n"
        ++ epicBlock simpleExpected ++ parentBlock simpleExpected
        ++ currentBlock simpleExpected ++ siblingsBlock simpleExpected
        ++ subtasksBlock simpleExpected := by
  have h := C9_thm simpleExpected
  exact ⟨h.2.1 rfl, h.2.2.2.1 rfl, h.2.2.2.2.2.2.1, h.1⟩
